import Mathlib

/-!
Verification of the supervised-streaming services in this repository.

JavaScript strings are modelled as `List Char`; JavaScript numbers are
modelled as `ℚ` (every arithmetic operation performed by the code on the
values that occur — millisecond delays `5000 * 1.5^k` capped at `60000`
for `k ≤ 14`, and `h*3600 + m*60 + s + cc/100` — is exact in IEEE-754
doubles, so `ℚ` coincides with the JavaScript semantics on these inputs).
Console logging, `Date` bookkeeping that the claims do not touch, and the
HTTP route layer are external effects and are not part of the state.
-/

/-! ## JavaScript string primitives

`String.prototype.includes` and single-replacement
`String.prototype.replace(string, string)` (replaces the first occurrence
only), modelled on `List Char`. -/

/-- Does `s` start with `pat`? -/
def listStartsWith : List Char → List Char → Bool
  | _, [] => true
  | [], _ :: _ => false
  | c :: s, p :: ps => c == p && listStartsWith s ps

/-- JavaScript `s.includes(pat)`: `pat` occurs as a contiguous substring of `s`. -/
def listHasSub : List Char → List Char → Bool
  | [], pat => listStartsWith [] pat
  | c :: t, pat => listStartsWith (c :: t) pat || listHasSub t pat

/-- JavaScript `s.replace(pat, rep)` with a string pattern: replace the
first occurrence of `pat` only; return `s` unchanged when `pat` does not
occur. -/
def listReplaceFirst : List Char → List Char → List Char → List Char
  | [], pat, rep => if listStartsWith [] pat then rep else []
  | c :: t, pat, rep =>
    if listStartsWith (c :: t) pat then rep ++ (c :: t).drop pat.length
    else c :: listReplaceFirst t pat rep

/-! ## UrlNormalizer — `convertDropboxUrl` (src/server.js lines 16–23)

```js
function convertDropboxUrl(shareUrl) {
    if (shareUrl.includes('/scl/fi/')) {
        return shareUrl.replace('?dl=0', '?dl=1').replace('&dl=0', '&dl=1');
    }
    return shareUrl.replace('?dl=0', '?dl=1').replace('/s/', '/scl/fi/');
}
``` -/

def sclFiLit : List Char := "/scl/fi/".toList

def qdl0Lit : List Char := "?dl=0".toList

def qdl1Lit : List Char := "?dl=1".toList

def adl0Lit : List Char := "&dl=0".toList

def adl1Lit : List Char := "&dl=1".toList

def slashSLit : List Char := "/s/".toList

/-- `convertDropboxUrl` from src/server.js lines 16–23. -/
def convertDropboxUrl (shareUrl : List Char) : List Char :=
  if listHasSub shareUrl sclFiLit then
    listReplaceFirst (listReplaceFirst shareUrl qdl0Lit qdl1Lit) adl0Lit adl1Lit
  else
    listReplaceFirst (listReplaceFirst shareUrl qdl0Lit qdl1Lit) slashSLit sclFiLit

/-! ## ProcessDiagnosticsParser — `parsePosition` (src/server.js lines 533–544)

```js
function parsePosition(output) {
    // Look for time=00:00:05.80 format in FFmpeg output
    const timeMatch = output.match(/time=([0-9]{2}):([0-9]{2}):([0-9]{2})\\.([0-9]{2})/);
    if (timeMatch) {
        const hours = parseInt(timeMatch[1]);
        const minutes = parseInt(timeMatch[2]);
        const seconds = parseInt(timeMatch[3]);
        const centiseconds = parseInt(timeMatch[4]);
        return hours * 3600 + minutes * 60 + seconds + centiseconds / 100;
    }
    return null;
}
```

In a JavaScript regular-expression literal, `\\` is an escape sequence
matching one literal backslash character, after which the unescaped `.`
matches any character except a line terminator.  The pattern as written
therefore requires the characters `HH:MM:SS` to be followed by a literal
backslash and one arbitrary character before the two fractional digits. -/

def digitVal (c : Char) : ℕ := c.toNat - 48

/-- JavaScript regex `.` (without the `s` flag): any character except a
line terminator (`\n`, `\r`, U+2028, U+2029). -/
def isRegexDot (c : Char) : Bool :=
  !(c == '\n' || c == '\r' || c == Char.ofNat 8232 || c == Char.ofNat 8233)

/-- Attempt to match the literal of src/server.js line 535 —
`time=` DD `:` DD `:` DD `\` ⟨any⟩ DD — at the head of the character list,
returning the four captured two-digit groups already run through
`parseInt`. -/
def matchTimeAt : List Char → Option (ℕ × ℕ × ℕ × ℕ)
  | c0 :: c1 :: c2 :: c3 :: c4 :: h1 :: h2 :: c5 :: m1 :: m2 :: c6 :: s1 :: s2 :: b :: d :: f1 :: f2 :: _ =>
    if c0 == 't' && c1 == 'i' && c2 == 'm' && c3 == 'e' && c4 == '=' &&
        h1.isDigit && h2.isDigit && c5 == ':' && m1.isDigit && m2.isDigit &&
        c6 == ':' && s1.isDigit && s2.isDigit && b == '\\' && isRegexDot d &&
        f1.isDigit && f2.isDigit then
      some (digitVal h1 * 10 + digitVal h2, digitVal m1 * 10 + digitVal m2,
            digitVal s1 * 10 + digitVal s2, digitVal f1 * 10 + digitVal f2)
    else none
  | _ => none

/-- Scan for the first match of the regex of src/server.js line 535 (a
JavaScript `match` finds the leftmost match in the string). -/
def findTimeToken : List Char → Option (ℕ × ℕ × ℕ × ℕ)
  | [] => none
  | c :: rest =>
    match matchTimeAt (c :: rest) with
    | some g => some g
    | none => findTimeToken rest

/-- `hours * 3600 + minutes * 60 + seconds + centiseconds / 100` from
src/server.js line 541. -/
def timeToSeconds (hours minutes seconds centiseconds : ℕ) : ℚ :=
  (hours : ℚ) * 3600 + (minutes : ℚ) * 60 + (seconds : ℚ) + (centiseconds : ℚ) / 100

/-- `parsePosition` from src/server.js lines 533–544: find the first match
of the regex as actually written (with the `\\` escape) and convert it to
seconds; `none` models the JavaScript `null`. -/
def parsePosition (output : List Char) : Option ℚ :=
  (findTimeToken output).map fun g => timeToSeconds g.1 g.2.1 g.2.2.1 g.2.2.2

/-- Modelled from the spec: a `time=HH:MM:SS.cc`-shaped token, with an
actual dot — the format the comment on src/server.js line 534 and the spec
describe. -/
def specMatchTimeAt : List Char → Option (ℕ × ℕ × ℕ × ℕ)
  | c0 :: c1 :: c2 :: c3 :: c4 :: h1 :: h2 :: c5 :: m1 :: m2 :: c6 :: s1 :: s2 :: dt :: f1 :: f2 :: _ =>
    if c0 == 't' && c1 == 'i' && c2 == 'm' && c3 == 'e' && c4 == '=' &&
        h1.isDigit && h2.isDigit && c5 == ':' && m1.isDigit && m2.isDigit &&
        c6 == ':' && s1.isDigit && s2.isDigit && dt == '.' &&
        f1.isDigit && f2.isDigit then
      some (digitVal h1 * 10 + digitVal h2, digitVal m1 * 10 + digitVal m2,
            digitVal s1 * 10 + digitVal s2, digitVal f1 * 10 + digitVal f2)
    else none
  | _ => none

/-- Modelled from the spec: scan a diagnostics line for the first
`time=HH:MM:SS.cc` token. -/
def specFindTimeToken : List Char → Option (ℕ × ℕ × ℕ × ℕ)
  | [] => none
  | c :: rest =>
    match specMatchTimeAt (c :: rest) with
    | some g => some g
    | none => specFindTimeToken rest

/-- Modelled from the spec: parse the first `time=HH:MM:SS.cc` token of a
diagnostics line to seconds. -/
def specParsePosition (output : List Char) : Option ℚ :=
  (specFindTimeToken output).map fun g => timeToSeconds g.1 g.2.1 g.2.2.1 g.2.2.2

/-! ## ContinuityState — `updatePosition` (src/server.js lines 547–560) and
the session resume rule of `startStream` (src/server.js lines 653–655).

```js
function updatePosition(newPosition) {
    if (newPosition && newPosition >= 0) {
        const actualPosition = sessionStartPosition + newPosition;
        currentPosition = actualPosition;
        if (currentPosition - lastStablePosition >= 3) {
            lastStablePosition = currentPosition;
            totalStreamTime = currentPosition;
        }
    }
}
// in startStream:
//   const resumePosition = restartAttempts > 0 ? lastStablePosition : 0;
//   sessionStartPosition = resumePosition;
```

The JavaScript guard `newPosition && newPosition >= 0` passes exactly when
the number is non-zero (truthy) and non-negative, i.e. strictly positive. -/

structure ContState where
  sessionStartPosition : ℚ
  currentPosition : ℚ
  lastStablePosition : ℚ
  totalStreamTime : ℚ
deriving DecidableEq

def updatePosition (st : ContState) (newPosition : ℚ) : ContState :=
  if 0 < newPosition then
    let actualPosition := st.sessionStartPosition + newPosition
    let st1 := { st with currentPosition := actualPosition }
    if 3 ≤ st1.currentPosition - st1.lastStablePosition then
      { st1 with lastStablePosition := st1.currentPosition,
                 totalStreamTime := st1.currentPosition }
    else st1
  else st

/-- One observable continuity event: a parsed `Progress` position from the
diagnostics stream, or a restart of the capture subprocess (`resumed` is
`restartAttempts > 0` at the time `startStream` runs). -/
inductive ContEvent where
  | progress (p : ℚ)
  | restart (resumed : Bool)

def contStep (st : ContState) : ContEvent → ContState
  | .progress p => updatePosition st p
  | .restart resumed =>
    { st with sessionStartPosition := if resumed then st.lastStablePosition else 0 }

def contRun (st : ContState) (evs : List ContEvent) : ContState :=
  evs.foldl contStep st

/-! ## ProcessSupervisor — progressive-backoff revision
(src/unnamed/part_005 lines 1–282)

Module state: `streamProcess` (modelled as `procRunning`), `streamStatus`,
`lastError`, `restartAttempts`, `restartDelay` (5000 initially, reset to
5000 on stable connection or intentional stop), `intentionalStop`; the
per-invocation `isConnected` flag; and, for the timer semantics, the number
of `setTimeout(startStream, …)` callbacks currently pending (`pendingTimers`)
plus a count of `spawn` calls (`spawnCount`).  `startTime` and console
output are omitted.  The environment variables RTMP_URL/STREAM_KEY/VIDEO_URL
are assumed configured (the missing-variable early return of `startStream`
is configuration validation outside every claim). -/

inductive StrStatus where
  | stopped
  | starting
  | streaming
  | error
  | failed
deriving DecidableEq

structure SupState where
  procRunning : Bool
  streamStatus : StrStatus
  lastError : String
  restartAttempts : ℕ
  restartDelay : ℚ
  intentionalStop : Bool
  isConnected : Bool
  pendingTimers : ℕ
  spawnCount : ℕ
deriving DecidableEq

def initSupState : SupState :=
  { procRunning := false, streamStatus := .stopped, lastError := "",
    restartAttempts := 0, restartDelay := 5000, intentionalStop := false,
    isConnected := false, pendingTimers := 0, spawnCount := 0 }

/-- `scheduleRestart` from src/unnamed/part_005 lines 21–37.  Returns the
updated module state together with the delay of the newly scheduled
`setTimeout(startStream, currentDelay)` (`none` when the max-attempts guard
gave up and nothing was scheduled). -/
def scheduleRestart (s : SupState) : SupState × Option ℚ :=
  if 15 ≤ s.restartAttempts then
    ({ s with streamStatus := .failed }, none)
  else
    let attempts := s.restartAttempts + 1
    let currentDelay := min (s.restartDelay * (3 / 2 : ℚ) ^ (attempts - 1)) 60000
    ({ s with restartAttempts := attempts, pendingTimers := s.pendingTimers + 1 },
     some currentDelay)

/-- `startStream` from src/unnamed/part_005 lines 48–193: no-op when a
process is already running, otherwise spawn (fresh per-invocation
`isConnected = false`), status `starting`, `lastError = null`. -/
def startStream (s : SupState) : SupState :=
  if s.procRunning then s
  else
    { s with procRunning := true, streamStatus := .starting, lastError := "",
             isConnected := false, spawnCount := s.spawnCount + 1 }

/-- The `close` handler of src/unnamed/part_005 lines 147–184: clear the
process handle and connection flag, then branch on `intentionalStop` and
the exit code; every non-intentional exit — exit code 0 included — calls
`scheduleRestart`. -/
def handleClose (s : SupState) (code : ℤ) : SupState × Option ℚ :=
  let s1 := { s with procRunning := false, isConnected := false }
  if s1.intentionalStop then
    ({ s1 with streamStatus := .stopped, restartAttempts := 0,
               restartDelay := 5000, intentionalStop := false }, none)
  else if code ≠ 0 then
    scheduleRestart ({ s1 with
                         streamStatus := .error,
                         lastError := "Stream failed with exit code " ++ toString code })
  else
    scheduleRestart ({ s1 with
                         streamStatus := .error,
                         lastError := "Stream ended unexpectedly (clean exit but not requested)" })

/-- `stopStream` from src/unnamed/part_005 lines 196–207 (identical in
src/unnamed/part_005 lines 923–934 and, up to the attempt reset placement,
src/server.js lines 768–777): when a process is running, mark the next
exit intentional and send SIGTERM; otherwise just set the public status.
No pending `setTimeout` is ever cleared. -/
def stopStream (s : SupState) : SupState :=
  if s.procRunning then
    { s with intentionalStop := true, restartAttempts := 0 }
  else
    { s with streamStatus := .stopped }

/-- A pending restart timer fires: the `setTimeout` callback of
`scheduleRestart` runs `startStream()`. -/
def timerFire (s : SupState) : SupState :=
  if s.pendingTimers = 0 then s
  else startStream { s with pendingTimers := s.pendingTimers - 1 }

/-- The backoff formula the spec states for attempt `n`:
`min(baseDelay * growthFactor^(n-1), maxDelay)` with this revision's
constants (base 5000 ms, factor 1.5, cap 60000 ms).  Stated from the
spec's words, to be compared with what `scheduleRestart` computes. -/
def specBackoffDelay (n : ℕ) : ℚ :=
  min (5000 * (3 / 2 : ℚ) ^ (n - 1)) 60000

/-! ## The EOF-rate-limited supervisor revision (src/Dockerfile,
second concatenated document, lines 46–411)

This revision adds EOF detection and rate limiting to the same
progressive-backoff supervisor: module state additionally tracks
`lastStderr` (accumulated diagnostics tail) and `lastEOFRestart`
(timestamp of the previous EOF-triggered restart). -/

structure EofSupState where
  streamStatus : StrStatus
  lastError : String
  lastStderr : List Char
  lastEOFRestart : ℚ
  restartAttempts : ℕ
  restartDelay : ℚ
  intentionalStop : Bool
deriving DecidableEq

/-- What the `close` handler of the EOF revision schedules. -/
inductive ScheduledRestart where
  | noRestart
  | eofTimer (delay : ℚ)
  | backoffTimer (delay : ℚ)
  | giveUp
deriving DecidableEq

/-- The `isEOF` helper of src/Dockerfile lines 243–253: exit code 0 is
EOF; exit code 1 is EOF only when the accumulated stderr contains one of
the end-of-stream markers; every other exit code is not EOF. -/
def isEOF (code : ℤ) (stderr : List Char) : Bool :=
  if code == 0 then true
  else if code == 1 then
    listHasSub stderr "End of file".toList ||
    listHasSub stderr "Immediate exit requested".toList ||
    listHasSub stderr "Server returned 416".toList ||
    listHasSub stderr "HTTP/1.1 416".toList
  else false

/-- `scheduleRestart` of the EOF revision (src/Dockerfile lines 69–85);
same logic as the part_005 revision. -/
def eofScheduleRestart (s : EofSupState) : EofSupState × ScheduledRestart :=
  if 15 ≤ s.restartAttempts then
    ({ s with streamStatus := .failed }, .giveUp)
  else
    let attempts := s.restartAttempts + 1
    let currentDelay := min (s.restartDelay * (3 / 2 : ℚ) ^ (attempts - 1)) 60000
    ({ s with restartAttempts := attempts }, .backoffTimer currentDelay)

/-- The `close` handler of src/Dockerfile lines 226–299.  `now` is
`Date.now()` at handler time.  An EOF-classified failure (`code ≠ 0` and
`isEOF`) and a clean exit (`code = 0`) both take the rate-limited path:
`minDelay = (now - lastEOFRestart < 10000) ? 3000 : 1000`; a non-EOF
failure takes `scheduleRestart`. -/
def eofHandleClose (s : EofSupState) (code : ℤ) (now : ℚ) : EofSupState × ScheduledRestart :=
  if s.intentionalStop then
    ({ s with streamStatus := .stopped, restartAttempts := 0,
              restartDelay := 5000, intentionalStop := false }, .noRestart)
  else if code ≠ 0 then
    let s1 := { s with
                  streamStatus := StrStatus.error,
                  lastError := "Stream failed with exit code " ++ toString code }
    if isEOF code s1.lastStderr then
      let minDelay : ℚ := if now - s1.lastEOFRestart < 10000 then 3000 else 1000
      ({ s1 with lastEOFRestart := now }, .eofTimer minDelay)
    else
      eofScheduleRestart s1
  else
    let s1 := { s with
                  streamStatus := StrStatus.error,
                  lastError := "HTTP stream ended (EOF) - continuous loop restart" }
    let minDelay : ℚ := if now - s1.lastEOFRestart < 10000 then 3000 else 1000
    ({ s1 with lastEOFRestart := now }, .eofTimer minDelay)

/-! ## SegmentCache — StreamFetcher (src/src/stream-fetcher.js)

`this.segments` is a JavaScript `Map` (insertion-ordered, `set` replaces
in place), modelled as an association list with `setEntry`/`lookupEntry`.
The filesystem is modelled by a predicate `fsExists : String → Bool`
(`fs.stat`/`fs.access` succeed exactly on existing paths). -/

structure SegEntry where
  file : String
  timestamp : ℕ
  duration : ℚ
  ready : Bool
deriving DecidableEq

/-- JavaScript `Map.prototype.set`: replace in place, or append. -/
def setEntry : List (ℕ × SegEntry) → ℕ → SegEntry → List (ℕ × SegEntry)
  | [], k, v => [(k, v)]
  | kv :: t, k, v => if kv.1 = k then (k, v) :: t else kv :: setEntry t k v

/-- JavaScript `Map.prototype.get` (first entry with the key). -/
def lookupEntry : List (ℕ × SegEntry) → ℕ → Option SegEntry
  | [], _ => none
  | kv :: t, k => if k = kv.1 then some kv.2 else lookupEntry t k

structure FetchState where
  cacheDir : String
  segmentDuration : ℚ
  maxSegments : ℕ
  currentSegment : ℕ
  segments : List (ℕ × SegEntry)

/-- `path.join(this.cacheDir, `segment_${id}.ts`)`. -/
def segmentFileName (dir : String) (segmentId : ℕ) : String :=
  dir ++ "/segment_" ++ toString segmentId ++ ".ts"

/-- Insertion sort of segment ids, ascending — the effect of
`Array.from(this.segments.keys()).sort((a, b) => a - b)`. -/
def insertAsc (n : ℕ) : List ℕ → List ℕ
  | [] => [n]
  | m :: t => if m < n then m :: insertAsc n t else n :: m :: t

def sortAsc (l : List ℕ) : List ℕ := l.foldr insertAsc []

/-- `cleanupOldSegments` from src/src/stream-fetcher.js lines 306–321:
when more than `maxSegments` ids are tracked, drop the smallest ids from
the metadata map (physical files are left to the HLS muxer). -/
def cleanupOldSegments (st : FetchState) : FetchState :=
  let sortedSegments := sortAsc (st.segments.map Prod.fst)
  if st.maxSegments < sortedSegments.length then
    let toRemove := sortedSegments.take (sortedSegments.length - st.maxSegments)
    { st with segments := st.segments.filter (fun kv => !(toRemove.contains kv.1)) }
  else st

/-- `registerSegment` from src/src/stream-fetcher.js lines 278–304: stat
the backing file; only on success record the entry (`ready: true`) and run
cleanup; on a stat failure the `catch` arm only logs.  (`saveCheckpoint`
every 100th segment writes externally and does not change this state.) -/
def registerSegment (fsExists : String → Bool) (st : FetchState) (now : ℕ)
    (segmentId : ℕ) : FetchState :=
  let segmentFile := segmentFileName st.cacheDir segmentId
  if fsExists segmentFile then
    let entry : SegEntry :=
      { file := segmentFile, timestamp := now,
        duration := st.segmentDuration, ready := true }
    cleanupOldSegments { st with segments := setEntry st.segments segmentId entry }
  else st

/-- One entry of the persisted checkpoint's `segments` object. -/
structure CheckpointEntry where
  timestamp : ℕ
  duration : ℚ
  ready : Bool

/-- One iteration of the `loadCheckpoint` loop over
`Object.entries(checkpoint.segments)`: `fs.access` the entry's backing
file and keep the entry (with the `file` path attached, `ready` taken from
the checkpoint) only when the file still exists. -/
def loadCheckpointStep (fsExists : String → Bool) (dir : String)
    (acc : List (ℕ × SegEntry)) (kv : ℕ × CheckpointEntry) : List (ℕ × SegEntry) :=
  if fsExists (segmentFileName dir kv.1) then
    setEntry acc kv.1
      { file := segmentFileName dir kv.1, timestamp := kv.2.timestamp,
        duration := kv.2.duration, ready := kv.2.ready }
  else acc

/-- `loadCheckpoint` from src/src/stream-fetcher.js lines 44–67: starting
from the empty map (`this.segments` is empty when `initialize` runs),
verify each checkpoint entry's backing file; entries whose file is gone
are silently discarded. -/
def loadCheckpoint (fsExists : String → Bool) (dir : String)
    (cpSegments : List (ℕ × CheckpointEntry)) : List (ℕ × SegEntry) :=
  cpSegments.foldl (loadCheckpointStep fsExists dir) []

/-! ## PublisherPool — StreamPublisher (src/src/stream-publisher.js)

Endpoint records `{ name, url, priority, active }`; the claims below are
about the `active` flags, so `url` (never branched on) is omitted.
`setEndpointActive` also spawns or SIGTERMs the per-endpoint subprocess;
that effect is external to the flag state modelled here. -/

structure Endpoint where
  name : List Char
  priority : ℕ
  active : Bool
deriving DecidableEq

/-- The mutation performed by `setEndpointActive(name, active)`
(src/src/stream-publisher.js lines 332–347): `this.endpoints.find(...)`
locates the first endpoint with the name and flips its `active` field in
place. -/
def setEndpointActive : List Endpoint → List Char → Bool → List Endpoint
  | [], _, _ => []
  | e :: t, nm, b =>
    if e.name = nm then { e with active := b } :: t
    else e :: setEndpointActive t nm b

/-- Stable ascending insertion by `priority` — the effect of
`.sort((a, b) => a.priority - b.priority)`. -/
def insertByPriority (e : Endpoint) : List Endpoint → List Endpoint
  | [] => [e]
  | f :: t => if f.priority < e.priority then f :: insertByPriority e t else e :: f :: t

def sortByPriority (l : List Endpoint) : List Endpoint :=
  l.foldr insertByPriority []

def backupLit : List Char := "backup".toList

/-- `fallbackQuality` from src/src/stream-publisher.js lines 365–393:
activate the first inactive backup endpoint (name contains `backup` or
priority > 1, sorted by priority), then deactivate the first active
priority-1 endpoint. -/
def fallbackQuality (l : List Endpoint) : List Endpoint :=
  let backupEndpoints :=
    sortByPriority (l.filter fun e => listHasSub e.name backupLit || decide (1 < e.priority))
  if backupEndpoints.length ≠ 0 then
    let l1 :=
      match backupEndpoints.find? (fun e => !e.active) with
      | some e => setEndpointActive l e.name true
      | none => l
    let primaryEndpoints := l1.filter fun e => e.priority == 1
    match primaryEndpoints.find? (fun e => e.active) with
    | some e => setEndpointActive l1 e.name false
    | none => l1
  else l

/-- `restoreQuality` from src/src/stream-publisher.js lines 396–419,
immediate part: reactivate the primary endpoint when it is inactive; the
returned flag records whether the 10-second settle `setTimeout` was
scheduled. -/
def restoreQuality (l : List Endpoint) : List Endpoint × Bool :=
  let primaryEndpoints := sortByPriority (l.filter fun e => e.priority == 1)
  match primaryEndpoints with
  | [] => (l, false)
  | primary :: _ =>
    if !primary.active then (setEndpointActive l primary.name true, true)
    else (l, false)

/-- The body of `restoreQuality`'s settle `setTimeout` (fires 10 s later):
deactivate the first currently-active backup endpoint. -/
def restoreSettle (l : List Endpoint) : List Endpoint :=
  let backupEndpoints := l.filter fun e => decide (1 < e.priority) && e.active
  match backupEndpoints with
  | [] => l
  | b :: _ => setEndpointActive l b.name false

/-! ### Per-endpoint reconnect supervision — `startDirectPublisher`
(src/src/stream-publisher.js lines 84–201) and its `close` handler
(lines 176–195; `startPublisher`'s handler at lines 271–290 is identical).

`let reconnectAttempts = 0` is declared inside `startDirectPublisher`, so
every invocation — including the ones run by the reconnect `setTimeout` —
starts with its own counter at zero.  The model keeps that per-invocation
counter (`localAttempts`) together with the pool-level fields the handler
touches. -/

structure DirectPubState where
  endpointActive : Bool
  failedConnections : ℕ
  reconnects : ℕ
  localAttempts : ℕ
  running : Bool
  reconnectPending : Bool
deriving DecidableEq

def initDirectPub : DirectPubState :=
  { endpointActive := true, failedConnections := 0, reconnects := 0,
    localAttempts := 0, running := false, reconnectPending := false }

/-- A fresh invocation of `startDirectPublisher`: spawns the publisher
process and initialises this invocation's `reconnectAttempts` to 0. -/
def startDirectPublisher (s : DirectPubState) : DirectPubState :=
  { s with running := true, localAttempts := 0, reconnectPending := false }

/-- The `close` handler for a process that exited without ever having
connected (so the `fps=` reset never ran), while the pool `isRunning` flag
is `poolRunning`: `reconnectAttempts++`, then either schedule a reconnect
(`reconnectAttempts <= maxReconnects`, `maxReconnects = 10`) or mark the
endpoint inactive and count a failed connection. -/
def publisherCloseNoSuccess (poolRunning : Bool) (s : DirectPubState) : DirectPubState :=
  let s1 := { s with running := false }
  if poolRunning && s1.endpointActive then
    let attempts := s1.localAttempts + 1
    if attempts ≤ 10 then
      { s1 with localAttempts := attempts, reconnectPending := true,
                reconnects := s1.reconnects + 1 }
    else
      { s1 with localAttempts := attempts, endpointActive := false,
                failedConnections := s1.failedConnections + 1 }
  else s1

/-- The reconnect `setTimeout` fires: `this.startDirectPublisher(endpoint,
inputPath)` runs as a fresh invocation. -/
def reconnectFire (s : DirectPubState) : DirectPubState :=
  if s.reconnectPending then startDirectPublisher s else s

/-- One complete failure round: the running process exits without success
and the scheduled reconnect (if any) fires. -/
def failureCycle (s : DirectPubState) : DirectPubState :=
  reconnectFire (publisherCloseNoSuccess true s)

/-! ## Claims -/

def c1WitnessState : SupState :=
  { procRunning := true, streamStatus := .streaming, lastError := "",
    restartAttempts := 15, restartDelay := 5000, intentionalStop := false,
    isConnected := true, pendingTimers := 0, spawnCount := 1 }

def c2WitnessState : SupState :=
  { initSupState with procRunning := true, streamStatus := .streaming }

/-- The state for the C3 counterexample: the diagnostics tail holds the
explicit end-of-stream marker `End of file`, no EOF restart happened
before, and stop was not requested. -/
def c3CexState : EofSupState :=
  { streamStatus := .streaming, lastError := "",
    lastStderr := "End of file".toList, lastEOFRestart := 0,
    restartAttempts := 0, restartDelay := 5000, intentionalStop := false }

def c3WitnessState : EofSupState :=
  { streamStatus := .streaming, lastError := "", lastStderr := [],
    lastEOFRestart := 0, restartAttempts := 0, restartDelay := 5000,
    intentionalStop := false }

/-- C4 counterexample trace, step 1: `startStream()` on the idle service
spawns the first process. -/
def c4TraceS1 : SupState := startStream initSupState

/-- C4 counterexample trace, step 2: the process fails (exit code 1); the
close handler schedules a backoff-restart timer. -/
def c4TraceS2 : SupState := (handleClose c4TraceS1 1).1

/-- C4 counterexample trace, step 3: `stopStream()` arrives while that
timer is pending (no process is running). -/
def c4TraceS3 : SupState := stopStream c4TraceS2

/-- A filesystem for the C6 witness on which exactly the two registered
segment files exist. -/
def c6Fs : String → Bool := fun p =>
  p == segmentFileName "cache" 3 || p == segmentFileName "cache" 4

def c6FetchState : FetchState :=
  { cacheDir := "cache", segmentDuration := 1 / 2, maxSegments := 60,
    currentSegment := 0, segments := [] }

/-- The C10 counterexample input: an old-format Dropbox share URL whose
`dl=0` parameter follows a `&` rather than a `?`. -/
def dropboxCexUrl : List Char := "/s/a&dl=0".toList

def c10WitnessUrl : List Char := "https://www.dropbox.com/scl/fi/abc/v.mp4?dl=1".toList

theorem listReplaceFirst_of_not_sub (s pat rep : List Char)
    (h : listHasSub s pat = false) : listReplaceFirst s pat rep = s := by
  induction s with
  | nil =>
    simp only [listHasSub] at h
    simp [listReplaceFirst, h]
  | cons c t ih =>
    simp only [listHasSub, Bool.or_eq_false_iff] at h
    simp [listReplaceFirst, h.1, ih h.2]

theorem lookupEntry_setEntry (l : List (ℕ × SegEntry)) (k j : ℕ) (v : SegEntry) :
    lookupEntry (setEntry l k v) j = if j = k then some v else lookupEntry l j := by
  induction l with
  | nil => simp [setEntry, lookupEntry]
  | cons kv t ih =>
    simp only [setEntry]
    by_cases hk : kv.1 = k
    · rw [if_pos hk]
      by_cases hj : j = k
      · simp [lookupEntry, hj]
      · have hj' : ¬j = kv.1 := fun h => hj (h.trans hk)
        simp [lookupEntry, hj, hj']
    · rw [if_neg hk]
      by_cases hj : j = kv.1
      · have hj' : ¬j = k := fun h => hk (hj ▸ h)
        simp [lookupEntry, hj, hj', hk]
      · simp [lookupEntry, hj, ih]

theorem lookupEntry_filter_isSome (l : List (ℕ × SegEntry))
    (p : ℕ × SegEntry → Bool) (j : ℕ)
    (h : (lookupEntry (l.filter p) j).isSome = true) :
    (lookupEntry l j).isSome = true := by
  induction l with
  | nil => simp [lookupEntry] at h
  | cons kv t ih =>
    by_cases hp : p kv
    · rw [List.filter_cons_of_pos hp] at h
      by_cases hj : j = kv.1
      · simp [lookupEntry, hj]
      · simp only [lookupEntry, if_neg hj] at h ⊢
        exact ih h
    · rw [List.filter_cons_of_neg (by simpa using hp)] at h
      by_cases hj : j = kv.1
      · simp [lookupEntry, hj]
      · simp only [lookupEntry, if_neg hj]
        exact ih h

/-- Claim C1: for every exit event with accumulated attempt count at least
the configured maximum (`maxRestartAttempts = 15` in the part_005
revision), and stop not requested, the close handler gives up: no restart
is scheduled (no timer delay is returned and no timer becomes pending) and
the stream enters the `failed` state — regardless of the exit code. -/
theorem claim1_max_attempts_give_up (s : SupState) (code : ℤ)
    (hint : s.intentionalStop = false) (hmax : 15 ≤ s.restartAttempts) :
    (handleClose s code).1.streamStatus = StrStatus.failed ∧
    (handleClose s code).2 = none ∧
    (handleClose s code).1.pendingTimers = s.pendingTimers := by
  unfold handleClose scheduleRestart
  by_cases hc : code = 0 <;> simp [hint, hmax, hc]

theorem claim1_max_attempts_give_up_witness :
    c1WitnessState.intentionalStop = false ∧
    15 ≤ c1WitnessState.restartAttempts ∧
    ((handleClose c1WitnessState 0).1.streamStatus = StrStatus.failed ∧
     (handleClose c1WitnessState 0).2 = none ∧
     (handleClose c1WitnessState 0).1.pendingTimers = c1WitnessState.pendingTimers) :=
  ⟨rfl, by decide, claim1_max_attempts_give_up c1WitnessState 0 rfl (by decide)⟩

/-- Claim C2: for every non-intentional failure exit (`code ≠ 0`) while
below the attempt ceiling and with the base delay at its initial 5000 ms,
the scheduled backoff delay is exactly the spec formula
`min(5000 * 1.5^(n-1), 60000)` for the new attempt number `n`; that
formula never exceeds the cap and is monotonically non-decreasing in the
attempt number. -/
theorem claim2_backoff_delay (s : SupState) (code : ℤ)
    (hint : s.intentionalStop = false) (hc : code ≠ 0)
    (hlt : s.restartAttempts < 15) (hd : s.restartDelay = 5000) :
    (handleClose s code).2 = some (specBackoffDelay (s.restartAttempts + 1)) ∧
    (∀ n : ℕ, specBackoffDelay n ≤ 60000) ∧
    (∀ n m : ℕ, n ≤ m → specBackoffDelay n ≤ specBackoffDelay m) := by
  refine ⟨?_, fun n => min_le_right _ _, fun n m hnm => ?_⟩
  · unfold handleClose scheduleRestart specBackoffDelay
    simp [hint, hc, Nat.not_le.mpr hlt, hd]
  · unfold specBackoffDelay
    refine min_le_min (mul_le_mul_of_nonneg_left ?_ (by norm_num)) le_rfl
    exact pow_le_pow_right₀ (by norm_num) (Nat.sub_le_sub_right hnm 1)

theorem claim2_backoff_delay_witness :
    c2WitnessState.intentionalStop = false ∧ (1 : ℤ) ≠ 0 ∧
    c2WitnessState.restartAttempts < 15 ∧ c2WitnessState.restartDelay = 5000 ∧
    ((handleClose c2WitnessState 1).2 =
        some (specBackoffDelay (c2WitnessState.restartAttempts + 1)) ∧
     (∀ n : ℕ, specBackoffDelay n ≤ 60000) ∧
     (∀ n m : ℕ, n ≤ m → specBackoffDelay n ≤ specBackoffDelay m)) :=
  ⟨rfl, by decide, by decide, rfl,
   claim2_backoff_delay c2WitnessState 1 rfl (by decide) (by decide) rfl⟩

/-- Claim C3, counterexample: an exit with code 2 whose diagnostics tail
contains the end-of-stream marker `End of file` (so the claim classifies
it EOF-like: "exit code 0 **or** an end-of-stream marker in the
diagnostics tail"), occurring well outside the 10 s rate-limit window, is
*not* given an immediate 1 s (or 3 s) restart: `isEOF` consults the
markers only for exit code 1, so the handler takes the exponential-backoff
path and schedules a 5000 ms backoff timer instead. -/
theorem claim3_cex :
    listHasSub c3CexState.lastStderr "End of file".toList = true ∧
    isEOF 2 c3CexState.lastStderr = false ∧
    (eofHandleClose c3CexState 2 20000).2 = ScheduledRestart.backoffTimer 5000 ∧
    (eofHandleClose c3CexState 2 20000).2 ≠ ScheduledRestart.eofTimer 1000 ∧
    (eofHandleClose c3CexState 2 20000).2 ≠ ScheduledRestart.eofTimer 3000 := by
  have hb : (eofHandleClose c3CexState 2 20000).2 = ScheduledRestart.backoffTimer 5000 := by
    unfold eofHandleClose eofScheduleRestart c3CexState
    norm_num [isEOF]
  refine ⟨by decide, by decide, hb, ?_, ?_⟩ <;> simp [hb]

/-- Claim C3 as amended: for every EOF-classified exit — exit code 0, or
exit code 1 with an end-of-stream marker in the diagnostics tail (the
`isEOF` helper consults the markers only for exit code 1) — with stop not
requested, the close handler schedules an immediate EOF restart whose
delay is the normal minimum 1000 ms, except that when the previous
EOF-triggered restart was less than 10000 ms ago the delay is the longer
"frequent" minimum 3000 ms and never the normal minimum. -/
theorem claim3_eof_rate_limited (s : EofSupState) (code : ℤ) (now : ℚ)
    (hint : s.intentionalStop = false)
    (heof : isEOF code s.lastStderr = true) :
    (now - s.lastEOFRestart < 10000 →
      (eofHandleClose s code now).2 = ScheduledRestart.eofTimer 3000 ∧
      (eofHandleClose s code now).2 ≠ ScheduledRestart.eofTimer 1000) ∧
    (¬now - s.lastEOFRestart < 10000 →
      (eofHandleClose s code now).2 = ScheduledRestart.eofTimer 1000) := by
  by_cases hc : code = 0
  · subst hc
    unfold eofHandleClose
    constructor
    · intro hw
      simp [hint, hw]
    · intro hw
      simp [hint, hw]
  · unfold eofHandleClose
    constructor
    · intro hw
      simp [hint, hc, heof, hw]
    · intro hw
      simp [hint, hc, heof, hw]

theorem claim3_eof_rate_limited_witness :
    c3WitnessState.intentionalStop = false ∧
    isEOF 0 c3WitnessState.lastStderr = true ∧
    (((5000 : ℚ) - c3WitnessState.lastEOFRestart < 10000 →
        (eofHandleClose c3WitnessState 0 5000).2 = ScheduledRestart.eofTimer 3000 ∧
        (eofHandleClose c3WitnessState 0 5000).2 ≠ ScheduledRestart.eofTimer 1000) ∧
     (¬(5000 : ℚ) - c3WitnessState.lastEOFRestart < 10000 →
        (eofHandleClose c3WitnessState 0 5000).2 = ScheduledRestart.eofTimer 1000)) :=
  ⟨rfl, by decide,
   claim3_eof_rate_limited c3WitnessState 0 5000 rfl (by decide)⟩

/-- Claim C4, counterexample: after a failure exit schedules a
backoff-restart timer, calling `stop()` does *not* cancel it — the timer
is still pending after the stop (no `clearTimeout` exists anywhere in the
code), and when it fires `startStream()` performs a further spawn
(`spawnCount` rises from 1 to 2) even though the service was stopped. -/
theorem claim4_cex :
    c4TraceS2.pendingTimers = 1 ∧
    c4TraceS3.pendingTimers = 1 ∧
    c4TraceS3.streamStatus = StrStatus.stopped ∧
    c4TraceS3.spawnCount = 1 ∧
    (timerFire c4TraceS3).spawnCount = 2 ∧
    (timerFire c4TraceS3).procRunning = true :=
  ⟨rfl, rfl, rfl, rfl, rfl, rfl⟩

/-- Claim C4 as amended: when `stop()` is called while a backoff-restart
timer is pending (the failed process is already gone), the pending timer
is NOT cancelled — `stopStream` leaves the pending-timer count unchanged —
and when the timer later fires a further subprocess spawn occurs. -/
theorem claim4_stop_does_not_cancel_timer (s : SupState)
    (hrun : s.procRunning = false) (htimer : 0 < s.pendingTimers) :
    (stopStream s).pendingTimers = s.pendingTimers ∧
    (timerFire (stopStream s)).spawnCount = s.spawnCount + 1 ∧
    (timerFire (stopStream s)).procRunning = true := by
  unfold stopStream timerFire startStream
  simp [hrun, Nat.pos_iff_ne_zero.mp htimer]

theorem claim4_stop_does_not_cancel_timer_witness :
    c4TraceS3.procRunning = false ∧ 0 < c4TraceS3.pendingTimers ∧
    ((stopStream c4TraceS3).pendingTimers = c4TraceS3.pendingTimers ∧
     (timerFire (stopStream c4TraceS3)).spawnCount = c4TraceS3.spawnCount + 1 ∧
     (timerFire (stopStream c4TraceS3)).procRunning = true) :=
  ⟨rfl, by decide,
   claim4_stop_does_not_cancel_timer c4TraceS3 rfl (by decide)⟩

theorem contStep_lastStable_cases (st : ContState) (ev : ContEvent) :
    (contStep st ev).lastStablePosition = st.lastStablePosition ∨
    ((∃ p : ℚ, ev = ContEvent.progress p) ∧
      st.lastStablePosition + 3 ≤ (contStep st ev).lastStablePosition) := by
  cases ev with
  | restart resumed => exact Or.inl rfl
  | progress p =>
    unfold contStep updatePosition
    dsimp only
    by_cases h1 : 0 < p
    · rw [if_pos h1]
      by_cases h2 : 3 ≤ st.sessionStartPosition + p - st.lastStablePosition
      · refine Or.inr ⟨⟨p, rfl⟩, ?_⟩
        rw [if_pos h2]
        dsimp only
        linarith
      · rw [if_neg h2]
        exact Or.inl rfl
    · rw [if_neg h1]
      exact Or.inl rfl

theorem contStep_lastStable_mono (st : ContState) (ev : ContEvent) :
    st.lastStablePosition ≤ (contStep st ev).lastStablePosition := by
  rcases contStep_lastStable_cases st ev with h | ⟨_, h⟩
  · exact le_of_eq h.symm
  · linarith

theorem contRun_lastStable_mono (evs : List ContEvent) :
    ∀ st : ContState, st.lastStablePosition ≤ (contRun st evs).lastStablePosition := by
  induction evs with
  | nil => intro st; exact le_rfl
  | cons ev t ih =>
    intro st
    calc st.lastStablePosition ≤ (contStep st ev).lastStablePosition :=
          contStep_lastStable_mono st ev
      _ ≤ (contRun (contStep st ev) t).lastStablePosition := ih (contStep st ev)
      _ = (contRun st (ev :: t)).lastStablePosition := rfl

/-- Claim C5: over any sequence of continuity events — `Progress`
positions and capture-subprocess restarts included — `lastStablePosition`
never decreases; and a single event either leaves it unchanged or is a
`Progress` event that advances it by at least the 3-second checkpoint
granularity (restarts never move it). -/
theorem claim5_last_stable_position_invariant :
    (∀ (st : ContState) (evs : List ContEvent),
      st.lastStablePosition ≤ (contRun st evs).lastStablePosition) ∧
    (∀ (st : ContState) (ev : ContEvent),
      (contStep st ev).lastStablePosition = st.lastStablePosition ∨
      ((∃ p : ℚ, ev = ContEvent.progress p) ∧
        st.lastStablePosition + 3 ≤ (contStep st ev).lastStablePosition)) :=
  ⟨fun st evs => contRun_lastStable_mono evs st, contStep_lastStable_cases⟩

theorem cleanup_lookup_isSome (st : FetchState) (j : ℕ)
    (h : (lookupEntry (cleanupOldSegments st).segments j).isSome = true) :
    (lookupEntry st.segments j).isSome = true := by
  unfold cleanupOldSegments at h
  dsimp only at h
  by_cases hc : st.maxSegments < (sortAsc (st.segments.map Prod.fst)).length
  · rw [if_pos hc] at h
    exact lookupEntry_filter_isSome _ _ _ h
  · rw [if_neg hc] at h
    exact h

theorem loadCheckpoint_foldl_aux (fsExists : String → Bool) (dir : String)
    (cp : List (ℕ × CheckpointEntry)) :
    ∀ acc : List (ℕ × SegEntry),
      (∀ j : ℕ, (lookupEntry acc j).isSome = true →
        fsExists (segmentFileName dir j) = true) →
      ∀ j : ℕ,
        (lookupEntry (cp.foldl (loadCheckpointStep fsExists dir) acc) j).isSome = true →
        fsExists (segmentFileName dir j) = true := by
  induction cp with
  | nil => intro acc hacc j hj; exact hacc j hj
  | cons kv t ih =>
    intro acc hacc j hj
    rw [List.foldl_cons] at hj
    refine ih (loadCheckpointStep fsExists dir acc kv) ?_ j hj
    intro i hi
    unfold loadCheckpointStep at hi
    by_cases hfs : fsExists (segmentFileName dir kv.1) = true
    · rw [if_pos hfs, lookupEntry_setEntry] at hi
      by_cases hik : i = kv.1
      · rw [hik]; exact hfs
      · rw [if_neg hik] at hi
        exact hacc i hi
    · rw [if_neg hfs] at hi
      exact hacc i hi

/-- Claim C6: the SegmentCache never records a segment whose backing-file
stat fails.  First conjunct, `registerSegment`: any segment id present in
the map afterwards either was present before or is the freshly registered
id, in which case the stat of its backing file succeeded (on a stat
failure the state is unchanged).  Second conjunct, `loadCheckpoint`: every
entry of the reloaded map has an existing backing file — checkpoint
entries whose file is absent are discarded at load. -/
theorem claim6_segment_cache_requires_stat :
    (∀ (fsExists : String → Bool) (st : FetchState) (now segmentId j : ℕ),
      (lookupEntry (registerSegment fsExists st now segmentId).segments j).isSome = true →
      (lookupEntry st.segments j).isSome = true ∨
        (j = segmentId ∧ fsExists (segmentFileName st.cacheDir segmentId) = true)) ∧
    (∀ (fsExists : String → Bool) (dir : String)
        (cpSegments : List (ℕ × CheckpointEntry)) (j : ℕ),
      (lookupEntry (loadCheckpoint fsExists dir cpSegments) j).isSome = true →
      fsExists (segmentFileName dir j) = true) := by
  constructor
  · intro fsExists st now segmentId j h
    unfold registerSegment at h
    by_cases hfs : fsExists (segmentFileName st.cacheDir segmentId) = true
    · rw [if_pos hfs] at h
      have h2 := cleanup_lookup_isSome _ _ h
      rw [lookupEntry_setEntry] at h2
      by_cases hj : j = segmentId
      · exact Or.inr ⟨hj, hfs⟩
      · rw [if_neg hj] at h2
        exact Or.inl h2
    · rw [if_neg hfs] at h
      exact Or.inl h
  · intro fsExists dir cpSegments j h
    exact loadCheckpoint_foldl_aux fsExists dir cpSegments [] (by intro i hi; simp [lookupEntry] at hi) j h

theorem claim6_segment_cache_requires_stat_witness :
    ((lookupEntry (registerSegment c6Fs c6FetchState 0 3).segments 3).isSome = true ∧
     ((lookupEntry c6FetchState.segments 3).isSome = true ∨
       (3 = 3 ∧ c6Fs (segmentFileName c6FetchState.cacheDir 3) = true))) ∧
    ((lookupEntry (loadCheckpoint c6Fs "cache" [(4, ⟨0, 1 / 2, true⟩), (9, ⟨0, 1 / 2, true⟩)]) 4).isSome = true ∧
     c6Fs (segmentFileName "cache" 4) = true) :=
  ⟨⟨by decide, claim6_segment_cache_requires_stat.1 c6Fs c6FetchState 0 3 3 (by decide)⟩,
   ⟨by decide, claim6_segment_cache_requires_stat.2 c6Fs "cache"
      [(4, ⟨0, 1 / 2, true⟩), (9, ⟨0, 1 / 2, true⟩)] 4 (by decide)⟩⟩

/-- Claim C7: on the diagnostics line `time=00:00:05.80` — exactly the
format the function's own comment announces — `parsePosition` returns
`null`: the regex literal `/…\\.…/` requires a literal backslash before
the fractional digits, so the real token never matches.  The spec-shaped
parser extracts the token and yields `0*3600 + 0*60 + 5 + 80/100 = 5.8 s`;
the code's parser only matches pathological inputs such as
`time=00:00:05\x80` (backslash followed by an arbitrary character). -/
theorem claim7_parse_position_regex_bug :
    parsePosition "time=00:00:05.80".toList = none ∧
    specParsePosition "time=00:00:05.80".toList = some (timeToSeconds 0 0 5 80) ∧
    parsePosition "time=00:00:05\\x80".toList = some (timeToSeconds 0 0 5 80) ∧
    timeToSeconds 0 0 5 80 = 29 / 5 := by
  refine ⟨?_, ?_, ?_, ?_⟩
  · unfold parsePosition
    rw [show findTimeToken "time=00:00:05.80".toList = none from by decide]
    rfl
  · unfold specParsePosition
    rw [show specFindTimeToken "time=00:00:05.80".toList = some (0, 0, 5, 80) from by decide]
    rfl
  · unfold parsePosition
    rw [show findTimeToken "time=00:00:05\\x80".toList = some (0, 0, 5, 80) from by decide]
    rfl
  · unfold timeToSeconds
    norm_num

theorem failureCycle_good (s : DirectPubState)
    (h : s.endpointActive = true ∧ s.failedConnections = 0 ∧ s.localAttempts = 0 ∧
         s.running = true) :
    (failureCycle s).endpointActive = true ∧
    (failureCycle s).failedConnections = 0 ∧
    (failureCycle s).localAttempts = 0 ∧
    (failureCycle s).running = true ∧
    (failureCycle s).reconnects = s.reconnects + 1 := by
  obtain ⟨h1, h2, h3, h4⟩ := h
  unfold failureCycle publisherCloseNoSuccess reconnectFire startDirectPublisher
  simp [h1, h2, h3, h4]

/-- Claim C9: the per-endpoint reconnect ceiling is unreachable.
`reconnectAttempts` is local to each `startDirectPublisher` invocation and
every scheduled reconnect re-enters the function with a fresh counter, so
after `n` consecutive failing exits (no success, no stop) the endpoint is
still `active`, `failedConnections` is still 0, a reconnect was scheduled
every single time (`reconnects = n`), and the invocation counter is back
at 0 — for every `n`, including any `n > 10`. -/
theorem claim9_reconnect_ceiling_unreachable (n : ℕ) :
    ((failureCycle^[n]) (startDirectPublisher initDirectPub)).endpointActive = true ∧
    ((failureCycle^[n]) (startDirectPublisher initDirectPub)).failedConnections = 0 ∧
    ((failureCycle^[n]) (startDirectPublisher initDirectPub)).reconnects = n ∧
    ((failureCycle^[n]) (startDirectPublisher initDirectPub)).localAttempts = 0 ∧
    ((failureCycle^[n]) (startDirectPublisher initDirectPub)).running = true := by
  induction n with
  | zero => exact ⟨rfl, rfl, rfl, rfl, rfl⟩
  | succ k ih =>
    obtain ⟨h1, h2, h3, h4, h5⟩ := ih
    rw [Function.iterate_succ_apply']
    obtain ⟨g1, g2, g3, g4, g5⟩ := failureCycle_good _ ⟨h1, h2, h4, h5⟩
    exact ⟨g1, g2, by rw [g5, h3], g3, g4⟩

/-- Claim C10, counterexample: `convertDropboxUrl` is not idempotent.  On
`/s/a&dl=0` the first application rewrites only `/s/` → `/scl/fi/`
(there is no `?dl=0` occurrence), yielding `/scl/fi/a&dl=0`; the second
application then takes the `/scl/fi/` branch and rewrites `&dl=0` →
`&dl=1`. -/
theorem claim10_not_idempotent_cex :
    convertDropboxUrl dropboxCexUrl = "/scl/fi/a&dl=0".toList ∧
    convertDropboxUrl (convertDropboxUrl dropboxCexUrl) = "/scl/fi/a&dl=1".toList ∧
    convertDropboxUrl (convertDropboxUrl dropboxCexUrl) ≠ convertDropboxUrl dropboxCexUrl := by
  refine ⟨by decide, by decide, by decide⟩

/-- Claim C10 as amended: `convertDropboxUrl` is not idempotent on all
strings, but a URL already in the `/scl/fi/` direct-download form — one
containing `/scl/fi/` and containing neither `?dl=0` nor `&dl=0` — is a
fixed point: it is returned unchanged, and hence applying the conversion
twice equals applying it once on such URLs. -/
theorem claim10_converted_fixed_point (s : List Char)
    (h1 : listHasSub s sclFiLit = true)
    (h2 : listHasSub s qdl0Lit = false)
    (h3 : listHasSub s adl0Lit = false) :
    convertDropboxUrl s = s ∧
    convertDropboxUrl (convertDropboxUrl s) = convertDropboxUrl s := by
  have hfix : convertDropboxUrl s = s := by
    unfold convertDropboxUrl
    rw [if_pos h1, listReplaceFirst_of_not_sub s _ _ h2,
        listReplaceFirst_of_not_sub s _ _ h3]
  exact ⟨hfix, by rw [hfix, hfix]⟩

theorem claim10_converted_fixed_point_witness :
    listHasSub c10WitnessUrl sclFiLit = true ∧
    listHasSub c10WitnessUrl qdl0Lit = false ∧
    listHasSub c10WitnessUrl adl0Lit = false ∧
    (convertDropboxUrl c10WitnessUrl = c10WitnessUrl ∧
     convertDropboxUrl (convertDropboxUrl c10WitnessUrl) = convertDropboxUrl c10WitnessUrl) :=
  ⟨by decide, by decide, by decide,
   claim10_converted_fixed_point c10WitnessUrl (by decide) (by decide) (by decide)⟩

/-- Claim C8: starting from one active primary endpoint (priority 1) and
one inactive backup endpoint (priority > 1), `fallbackQuality()` followed
immediately by `restoreQuality()` leaves — once the 10 s restore-settle
timeout has fired — exactly the primary endpoint active and no backup
endpoint active: the endpoint list is back to its initial configuration. -/
theorem claim8_fallback_then_restore (np nb : List Char) (pb : ℕ)
    (hne : np ≠ nb) (hpb : 1 < pb) :
    (restoreQuality (fallbackQuality [⟨np, 1, true⟩, ⟨nb, pb, false⟩])).2 = true ∧
    restoreSettle (restoreQuality (fallbackQuality [⟨np, 1, true⟩, ⟨nb, pb, false⟩])).1 =
      [⟨np, 1, true⟩, ⟨nb, pb, false⟩] := by
  have hp2 : decide (1 < pb) = true := decide_eq_true hpb
  have hpb1 : (pb == 1) = false := beq_eq_false_iff_ne.mpr (ne_of_gt hpb)
  have hnlt : ¬pb < 1 := Nat.lt_asymm hpb
  have hne' : ¬np = nb := hne
  have hfall : fallbackQuality [⟨np, 1, true⟩, ⟨nb, pb, false⟩] =
      [⟨np, 1, false⟩, ⟨nb, pb, true⟩] := by
    unfold fallbackQuality
    cases hback : listHasSub np backupLit with
    | false =>
      simp [List.filter, List.find?, List.foldr, hp2, hback, sortByPriority,
            insertByPriority, setEndpointActive, hne', hpb1]
    | true =>
      simp [List.filter, List.find?, List.foldr, hp2, hback, sortByPriority,
            insertByPriority, setEndpointActive, hne', hpb1, hnlt]
  have hrest : restoreQuality [⟨np, 1, false⟩, ⟨nb, pb, true⟩] =
      ([⟨np, 1, true⟩, ⟨nb, pb, true⟩], true) := by
    unfold restoreQuality
    simp [List.filter, List.foldr, hpb1, sortByPriority, insertByPriority,
          setEndpointActive]
  have hsettle : restoreSettle [⟨np, 1, true⟩, ⟨nb, pb, true⟩] =
      [⟨np, 1, true⟩, ⟨nb, pb, false⟩] := by
    unfold restoreSettle
    simp [List.filter, hp2, setEndpointActive, hne']
  rw [hfall, hrest]
  exact ⟨rfl, hsettle⟩

theorem claim8_fallback_then_restore_witness :
    "primary".toList ≠ "backup".toList ∧ 1 < 2 ∧
    ((restoreQuality (fallbackQuality
        [⟨"primary".toList, 1, true⟩, ⟨"backup".toList, 2, false⟩])).2 = true ∧
     restoreSettle (restoreQuality (fallbackQuality
        [⟨"primary".toList, 1, true⟩, ⟨"backup".toList, 2, false⟩])).1 =
       [⟨"primary".toList, 1, true⟩, ⟨"backup".toList, 2, false⟩]) :=
  ⟨by decide, by decide,
   claim8_fallback_then_restore "primary".toList "backup".toList 2 (by decide) (by decide)⟩
